import Mathlib

/-!
Verification of the Actor-Critic component of `maro` (`src/maro/rl/algorithms/ac.py`)
against its natural-language specification.

Shallow embedding conventions:
* Scalars (numpy/torch floating-point values) are idealised as `Rat`.
* A state is a feature vector `List Rat`; a batch of states is `List (List Rat)`.
* The neural model is abstract: a parameter type `P` together with pure evaluation
  functions and a parameter-update function (the spec's model interface: actor-mode
  forward, critic-mode forward, a single-step update from a scalar loss).  Evaluation
  under `torch.no_grad()` / `.eval()` mutates nothing, which the purely functional
  embedding reflects directly.
* `torch.log` is abstract (`log : Rat → Rat`), passed as an explicit argument: the
  real logarithm is not rational, and every claim of interest concerns which values
  are fed to it and how its results are combined, not its numerical value.
* Python exceptions are explicit: `Except`/`Option` results, or `TrainOutcome.err`
  carrying the parameter state at the moment of the raise (the spec requires that
  aborted training calls leave parameters from prior successful updates intact).
-/

/-- Arithmetic mean of a list of scalars, as `torch.mean` on a 1-D tensor
(`sum / length`; the empty case is irrelevant to the claims below). -/
def mean (l : List Rat) : Rat := l.sum / l.length

/-- Elementwise subtraction of two 1-D tensors with torch/numpy broadcasting:
equal lengths subtract elementwise; a length-1 operand broadcasts against the
other; any other size combination raises (`none`).  This is the semantics of
`return_est - state_values` at `ac.py` line 90. -/
def torchSub1d (a b : List Rat) : Option (List Rat) :=
  if a.length = b.length then some (List.zipWith (fun x y => x - y) a b)
  else if b.length = 1 then some (a.map (fun x => x - b.headI))
  else if a.length = 1 then some (b.map (fun y => a.headI - y))
  else none

/-- Cumulative sums of a list (`numpy.cumsum`): entry `i` is the sum of the
first `i+1` elements. -/
def cumsum (l : List Rat) : List Rat :=
  (List.range l.length).map (fun i => (l.take (i + 1)).sum)

/-- The tolerance numpy's `random.choice` uses when checking that the
probability vector sums to 1: `sqrt(eps(float64)) = sqrt(2^-52) = 2^-26`. -/
def np_atol : Rat := 1 / 2 ^ 26

/-- Index drawn by `numpy.random.choice` from probability vector `p` given the
uniform variate `u ∈ [0,1)` drawn from the random source: numpy forms the
cumulative distribution, renormalises by its last entry, and takes
`searchsorted(u, side=right)`, i.e. the first index whose normalised cumulative
sum exceeds `u`. -/
def categoricalSample (p : List Rat) (u : Rat) : Nat :=
  ((cumsum p).map (fun c => c / p.sum)).findIdx (fun c => decide (u < c))

/-- The `ValueError`s `numpy.random.choice(n, p=...)` can raise, in the order
numpy checks them. -/
inductive ChoiceErr
  | popSize        -- `a must be greater than 0`
  | sizeMismatch   -- `a and p must have same size`
  | negativeProb   -- `probabilities are not non-negative`
  | notNormalized  -- `probabilities do not sum to 1`
  deriving DecidableEq, Repr

/-- `numpy.random.choice(n, p=p)` drawing a single sample, with `u` the uniform
variate consumed from the (deterministic, seedable) random source.  Validation
order follows numpy: population size, size agreement, negative entries, sum
tolerance. -/
def np_random_choice (n : Int) (p : List Rat) (u : Rat) : Except ChoiceErr Nat :=
  if n ≤ 0 then .error .popSize
  else if (p.length : Int) ≠ n then .error .sizeMismatch
  else if p.any (fun x => decide (x < 0)) then .error .negativeProb
  else if |p.sum - 1| > np_atol then .error .notNormalized
  else .ok (categoricalSample p u)

/-- `ActorCriticConfig` (`ac.py` lines 20-45): the six `__slots__` fields.
Integer-typed hyperparameters are Python ints (`Int`), float-typed ones `Rat`. -/
structure ActorCriticConfig where
  num_actions : Int
  reward_decay : Rat
  actor_train_iters : Int
  critic_train_iters : Int
  k : Int
  lam : Rat
  deriving DecidableEq, Repr

/-- `ActorCriticConfig.__init__` (`ac.py` lines 36-45): six plain attribute
assignments; the body contains no checks and cannot raise. -/
def ActorCriticConfig.init (num_actions : Int) (reward_decay : Rat)
    (actor_train_iters : Int) (critic_train_iters : Int)
    (k : Int) (lam : Rat) : ActorCriticConfig :=
  ⟨num_actions, reward_decay, actor_train_iters, critic_train_iters, k, lam⟩

/-- The abstract core model (`MultiTaskLearningModel`), per the spec's model
interface: actor-mode forward (per-state probability vector), critic-mode
forward (per-state scalar), a single parameter-update step from a scalar loss,
and the trainable-shared-layers capability flag queried at `ac.py` line 92.
Parameters of type `P` are threaded explicitly. -/
structure CoreModel (P : Type) where
  actorEval : P → List Rat → List Rat
  criticEval : P → List Rat → Rat
  step : P → Rat → P
  has_trainable_shared_layers : Bool

/-- Modelled from the spec: the k-step truncated-bootstrap return of §4.1,
a building block of `get_lambda_returns` (imported by `ac.py` from
`maro.rl.utils.trajectory_utils`, whose source is not part of this tree).
At step `t` with horizon `n` (the full remaining trajectory when `k = -1`,
else `k` truncated at the trajectory end):
`Σ_{i=0..n-1} γ^i r[t+i] + γ^n v[t+n]`, the bootstrap term omitted when
`t+n ≥ T`.  `kStepHorizon` is the effective horizon `n`. -/
def kStepHorizon (T : Nat) (k : Int) (t : Nat) : Nat :=
  if k < 0 then T - t else min k.toNat (T - t)

/-- The k-step return itself; horizon `n = kStepHorizon T k t`. -/
def kStepReturn (rewards values : List Rat) (γ : Rat) (k : Int) (t : Nat) : Rat :=
  (∑ i in Finset.range (kStepHorizon rewards.length k t), γ ^ i * rewards.getD (t + i) 0)
    + (if t + kStepHorizon rewards.length k t < rewards.length
        then γ ^ kStepHorizon rewards.length k t
              * values.getD (t + kStepHorizon rewards.length k t) 0
        else 0)

/-- Modelled from the spec: the λ-blended return of §4.1 for `λ ≠ 1`: the
exponentially weighted combination of n-step returns for `n = 1..(T-t)` with
weights `(1-λ)λ^(n-1)`, renormalised at the trajectory boundary.  (The spec's
§9 leaves the `k`/`λ` interaction open; following §4.1's words the blend ranges
over all horizons up to the boundary.) -/
def lambdaBlendReturn (rewards values : List Rat) (γ lam : Rat) (t : Nat) : Rat :=
  let H := rewards.length - t
  (∑ n in Finset.Icc 1 H, (1 - lam) * lam ^ (n - 1) * kStepReturn rewards values γ (n : Int) t)
    / (∑ n in Finset.Icc 1 H, (1 - lam) * lam ^ (n - 1))

/-- Modelled from the spec: `get_lambda_returns` from
`maro.rl.utils.trajectory_utils`, imported at `ac.py` line 12 but absent from
this tree.  Per §4.1: one return target per reward; when `λ = 1` the blend
degenerates to the pure k-step (or, for `k = -1`, full Monte-Carlo) return,
otherwise the weighted blend applies. -/
def get_lambda_returns (rewards values : List Rat) (γ lam : Rat) (k : Int) : List Rat :=
  (List.range rewards.length).map (fun t =>
    if lam = 1 then kStepReturn rewards values γ k t
    else lambdaBlendReturn rewards values γ lam t)

/-- `ActorCritic._get_values_and_bootstrapped_returns` (`ac.py` lines 75-83):
critic-mode forward over the state sequence gives the value estimates
(`detach` is a no-op in the pure embedding), then `get_lambda_returns` with the
configured decay, λ and k gives the return estimates. -/
def get_values_and_bootstrapped_returns {P : Type} (M : CoreModel P)
    (cfg : ActorCriticConfig) (θ : P) (states : List (List Rat))
    (rewards : List Rat) : List Rat × List Rat :=
  let state_values := states.map (M.criticEval θ)
  (state_values, get_lambda_returns rewards state_values cfg.reward_decay cfg.lam cfg.k)

/-- One iteration of the policy-training loop body (`ac.py` lines 97-99):
gather each taken action's probability from a fresh actor-mode forward under
the current parameters, form `-(log(action_prob) * advantages).mean()`, and
take one model step on that loss.  `log` is `torch.log`, applied to the raw
gathered probabilities. -/
def actorIter {P : Type} (log : Rat → Rat) (M : CoreModel P)
    (states : List (List Rat)) (actions : List Nat) (advantages : List Rat)
    (θ : P) : P :=
  let action_prob := (states.zip actions).map (fun sa => (M.actorEval θ sa.1).getD sa.2 0)
  let actor_loss := -(mean ((action_prob.zip advantages).map (fun pa => log pa.1 * pa.2)))
  M.step θ actor_loss

/-- The policy-training loop (`ac.py` lines 96-99): `for _ in range(n)` over
`actorIter`. -/
def actorPhase {P : Type} (log : Rat → Rat) (M : CoreModel P)
    (states : List (List Rat)) (actions : List Nat) (advantages : List Rat)
    (n : Nat) (θ : P) : P :=
  (List.range n).foldl (fun p _ => actorIter log M states actions advantages p) θ

/-- Result of a call to `train`: `ok` on normal return, `err` when a Python
exception propagates; both carry the model parameters as of that moment
(updates already applied by earlier iterations persist). -/
inductive TrainOutcome (P : Type)
  | ok (θ : P)
  | err (θ : P)
  deriving DecidableEq, Repr

/-- The parameter state a `train` call leaves behind, normal or not. -/
def TrainOutcome.params {P : Type} : TrainOutcome P → P
  | .ok θ => θ
  | .err θ => θ

/-- Whether a `train` call returned without raising. -/
def TrainOutcome.isOk {P : Type} : TrainOutcome P → Bool
  | .ok _ => true
  | .err _ => false

/-- The value-training loop (`ac.py` lines 102-104).  Each iteration evaluates
`self._critic_loss_func` — an attribute nothing in the class ever assigns
(`__init__` stores only the model and config, and `ActorCriticConfig.__init__`
accepts no `critic_loss_func` despite its docstring documenting one), embedded
as an `Option`al function that is `none` on every constructed instance — so a
`none` lookup raises `AttributeError` before any step of that iteration;
otherwise the loss is the supplied function applied to a fresh critic-mode
forward under the current parameters and the fixed `return_est`, followed by
one model step. -/
def criticPhase {P : Type} (M : CoreModel P)
    (lossFn : Option (List Rat → List Rat → Rat))
    (states : List (List Rat)) (return_est : List Rat) :
    Nat → P → TrainOutcome P
  | 0, θ => .ok θ
  | Nat.succ n, θ =>
    match lossFn with
    | none => .err θ
    | some f =>
      criticPhase M lossFn states return_est n
        (M.step θ (f (states.map (M.criticEval θ)) return_est))

/-- The `ActorCritic` algorithm object: the injected core model, the config,
and the `_critic_loss_func` attribute slot (see `criticPhase`). -/
structure ActorCritic (P : Type) where
  core_model : CoreModel P
  config : ActorCriticConfig
  critic_loss_func : Option (List Rat → List Rat → Rat)

/-- `ActorCritic.__init__` (`ac.py` lines 59-62): stores the model and config
(device placement is out of scope); no `_critic_loss_func` is ever assigned. -/
def ActorCritic.init {P : Type} (core_model : CoreModel P)
    (config : ActorCriticConfig) : ActorCritic P :=
  ⟨core_model, config, none⟩

/-- `ActorCritic.choose_action` (`ac.py` lines 68-73): a single actor-mode
forward in inference mode (`eval()` + `no_grad()`: pure, no parameter
mutation), then `np.random.choice(num_actions, p=action_dist)` with `u` the
uniform variate the global numpy random source supplies.  The `epsilon`
parameter appears in the signature but is never read. -/
def ActorCritic.choose_action {P : Type} (alg : ActorCritic P) (θ : P)
    (state : List Rat) (epsilon : Option Rat) (u : Rat) : Except ChoiceErr Nat :=
  let action_dist := alg.core_model.actorEval θ state
  np_random_choice alg.config.num_actions action_dist u

/-- `ActorCritic.train` (`ac.py` lines 87-104): compute values and return
estimates, subtract (with broadcasting) to get advantages, then — unless the
model has trainable shared layers, in which case the branch body is `pass` and
nothing at all happens — run the policy loop followed by the value loop.
`range` of a negative iteration count is empty, hence `Int.toNat`. -/
def ActorCritic.train {P : Type} (alg : ActorCritic P) (log : Rat → Rat)
    (θ : P) (states : List (List Rat)) (actions : List Nat)
    (rewards : List Rat) : TrainOutcome P :=
  let vr := get_values_and_bootstrapped_returns alg.core_model alg.config θ states rewards
  match torchSub1d vr.2 vr.1 with
  | none => .err θ
  | some advantages =>
    if alg.core_model.has_trainable_shared_layers then .ok θ
    else
      let θ1 := actorPhase log alg.core_model states actions advantages
        alg.config.actor_train_iters.toNat θ
      criticPhase alg.core_model alg.critic_loss_func states vr.2
        alg.config.critic_train_iters.toNat θ1

/-- Second definition for the refinement claim C2, following the spec's words
for `PolicyUpdateStep` (§4.3): perform the given number of iterations; each
iteration recomputes the action-probability of every taken action under the
parameters current at that iteration (never reusing a previous iteration's
probabilities), forms the loss `−mean_t(log(prob_t) · advantage_t)`, and
applies exactly one parameter step. -/
def policyUpdateSpec {P : Type} (log : Rat → Rat) (M : CoreModel P)
    (states : List (List Rat)) (actions : List Nat) (advantages : List Rat) :
    Nat → P → P
  | 0, θ => θ
  | Nat.succ n, θ =>
    policyUpdateSpec log M states actions advantages n
      (M.step θ
        (-(mean ((((states.zip actions).map
            (fun sa => (M.actorEval θ sa.1).getD sa.2 0)).zip advantages).map
            (fun pa => log pa.1 * pa.2)))))

/-! ### Concrete instances for closed evaluations -/

/-- A concrete scalar-parameter core model: the actor head returns a fixed
distribution, the critic head a fixed value, `stepF` is the parameter update,
and `shared` the trainable-shared-layers flag. -/
def probeModel (dist : List Rat) (value : Rat) (stepF : Rat → Rat → Rat)
    (shared : Bool) : CoreModel Rat :=
  ⟨fun _ _ => dist, fun _ _ => value, stepF, shared⟩

/-- A stand-in for `torch.log` that probes the argument: it distinguishes a
zero argument (value 1) from every nonzero argument (value 0). -/
def logProbeA : Rat → Rat := fun x => if x = 0 then 1 else 0

/-- Like `logProbeA` but with value 2 at zero: the two probes agree at every
nonzero argument and differ only at 0. -/
def logProbeB : Rat → Rat := fun x => if x = 0 then 2 else 0

/-- An algorithm instance whose actor assigns probability exactly 0 to action
0: one actor iteration, zero critic iterations. -/
def zeroProbAlg : ActorCritic Rat :=
  ActorCritic.init (probeModel [0, 1] 0 (fun p l => p + l) false)
    (ActorCriticConfig.init 2 (1/2) 1 0 (-1) 1)

/-- An algorithm instance with one critic iteration (and none for the actor). -/
def noLossAlg : ActorCritic Rat :=
  ActorCritic.init (probeModel [1/2, 1/2] 0 (fun p l => p + l) false)
    (ActorCriticConfig.init 2 (1/2) 0 1 (-1) 1)

/-- An algorithm instance whose model reports trainable shared layers; its
step function always moves the parameter (adds 1), so any executed gradient
step is visible. -/
def sharedAlg : ActorCritic Rat :=
  ActorCritic.init (probeModel [1/2, 1/2] 0 (fun p _ => p + 1) true)
    (ActorCriticConfig.init 2 (1/2) 1 0 (-1) 1)

/-- An algorithm instance with a uniform two-action distribution, for the
sampler claims. -/
def sampAlg : ActorCritic Rat :=
  ActorCritic.init (probeModel [1/2, 1/2] 0 (fun p l => p + l) false)
    (ActorCriticConfig.init 2 (9/10) 1 1 (-1) 1)

/-- A second sampler instance differing from `sampAlg` in everything the
sampler does not read (critic head, step, shared flag, decay), but agreeing on
the evaluated action distribution and `num_actions`. -/
def sampAlg2 : ActorCritic Rat :=
  ActorCritic.init (probeModel [1/2, 1/2] 7 (fun p _ => p) true)
    (ActorCriticConfig.init 2 (1/3) 5 2 3 (1/2))

/-! ### Helper lemmas -/

theorem get_lambda_returns_length (r v : List Rat) (γ lam : Rat) (k : Int) :
    (get_lambda_returns r v γ lam k).length = r.length := by
  simp [get_lambda_returns]

theorem zipWith_sub_get? : ∀ (G V : List Rat) (t : Nat), t < G.length → t < V.length →
    (List.zipWith (fun a b => a - b) G V).get? t = some (G.getD t 0 - V.getD t 0) := by
  intro G
  induction G with
  | nil => intro V t h; simp at h
  | cons g G ih =>
    intro V t h1 h2
    cases V with
    | nil => simp at h2
    | cons v V =>
      cases t with
      | zero => simp
      | succ t => simpa using ih V t (by simpa using h1) (by simpa using h2)

theorem foldl_const_eq_iterate {P : Type} (g : P → P) :
    ∀ (n : Nat) (θ : P), (List.range n).foldl (fun p _ => g p) θ = g^[n] θ := by
  intro n
  induction n with
  | zero => intro θ; rfl
  | succ n ih =>
    intro θ
    rw [List.range_succ, List.foldl_append, ih, Function.iterate_succ_apply']
    rfl

theorem policyUpdateSpec_eq_iterate {P : Type} (log : Rat → Rat) (M : CoreModel P)
    (states : List (List Rat)) (actions : List Nat) (advantages : List Rat) :
    ∀ (n : Nat) (θ : P), policyUpdateSpec log M states actions advantages n θ
      = (fun p => actorIter log M states actions advantages p)^[n] θ := by
  intro n
  induction n with
  | zero => intro θ; rfl
  | succ n ih =>
    intro θ
    rw [Function.iterate_succ_apply]
    exact ih _

theorem actorPhase_eq_policyUpdateSpec {P : Type} (log : Rat → Rat)
    (M : CoreModel P) (states : List (List Rat)) (actions : List Nat)
    (advantages : List Rat) (n : Nat) (θ : P) :
    actorPhase log M states actions advantages n θ
      = policyUpdateSpec log M states actions advantages n θ := by
  rw [actorPhase, foldl_const_eq_iterate, policyUpdateSpec_eq_iterate]

theorem criticPhase_none_params {P : Type} (M : CoreModel P)
    (states : List (List Rat)) (return_est : List Rat) :
    ∀ (n : Nat) (θ : P), (criticPhase M none states return_est n θ).params = θ := by
  intro n θ
  cases n <;> rfl

theorem kStepHorizon_neg_one (T t : Nat) : kStepHorizon T (-1) t = T - t := by
  simp [kStepHorizon]

theorem kStepReturn_monte_carlo (r v : List Rat) (γ : Rat) (t : Nat)
    (ht : t ≤ r.length) :
    kStepReturn r v γ (-1) t
      = ∑ i in Finset.Ico t r.length, γ ^ (i - t) * r.getD i 0 := by
  rw [Finset.sum_Ico_eq_sum_range]
  unfold kStepReturn
  rw [kStepHorizon_neg_one]
  rw [if_neg (by omega : ¬ (t + (r.length - t) < r.length)), add_zero]
  refine Finset.sum_congr rfl ?_
  intro i _
  rw [Nat.add_sub_cancel_left]

theorem kStepReturn_neg_one_value_indep (r v v' : List Rat) (γ : Rat) (t : Nat)
    (ht : t ≤ r.length) :
    kStepReturn r v γ (-1) t = kStepReturn r v' γ (-1) t := by
  rw [kStepReturn_monte_carlo r v γ t ht, kStepReturn_monte_carlo r v' γ t ht]

theorem get_lambda_returns_mc_get? (r v : List Rat) (γ : Rat) (t : Nat)
    (ht : t < r.length) :
    (get_lambda_returns r v γ 1 (-1)).get? t
      = some (∑ i in Finset.Ico t r.length, γ ^ (i - t) * r.getD i 0) := by
  unfold get_lambda_returns
  rw [List.get?_map, List.get?_range ht]
  simp [kStepReturn_monte_carlo r v γ t (Nat.le_of_lt ht)]

theorem get_lambda_returns_mc_value_indep (r v v' : List Rat) (γ : Rat) :
    get_lambda_returns r v γ 1 (-1) = get_lambda_returns r v' γ 1 (-1) := by
  unfold get_lambda_returns
  refine List.map_congr_left ?_
  intro t htmem
  rw [if_pos rfl, if_pos rfl,
    kStepReturn_neg_one_value_indep r v v' γ t (Nat.le_of_lt (List.mem_range.mp htmem))]

theorem sum_mem_cumsum (l : List Rat) (h : 0 < l.length) : l.sum ∈ cumsum l := by
  unfold cumsum
  refine List.mem_map.mpr ⟨l.length - 1, List.mem_range.mpr (by omega), ?_⟩
  rw [show l.length - 1 + 1 = l.length from by omega, List.take_length]

/-! ### Claim theorems -/

/-- C1: for every reward sequence, when `lam = 1` and `k = -1` the return
estimate computed during `train` (via `_get_values_and_bootstrapped_returns`)
at each index `t` is the pure Monte-Carlo return
`Σ_{i=t}^{T-1} γ^(i-t) r[i]`, and the whole output is independent of the value
estimates supplied (here: of the critic head, its parameters, and even the
state sequence it is evaluated on). -/
theorem C1_monte_carlo_return {P Q : Type} (M : CoreModel P) (M2 : CoreModel Q)
    (cfg : ActorCriticConfig) (θ : P) (θ2 : Q)
    (states states2 : List (List Rat)) (rewards : List Rat) (t : Nat)
    (hlam : cfg.lam = 1) (hk : cfg.k = -1) (ht : t < rewards.length) :
    (get_values_and_bootstrapped_returns M cfg θ states rewards).2.get? t
      = some (∑ i in Finset.Ico t rewards.length,
          cfg.reward_decay ^ (i - t) * rewards.getD i 0)
    ∧ (get_values_and_bootstrapped_returns M cfg θ states rewards).2
      = (get_values_and_bootstrapped_returns M2 cfg θ2 states2 rewards).2 := by
  unfold get_values_and_bootstrapped_returns
  rw [hlam, hk]
  exact ⟨get_lambda_returns_mc_get? rewards _ cfg.reward_decay t ht,
    get_lambda_returns_mc_value_indep rewards _ _ cfg.reward_decay⟩

/-- Witness for C1 at the spec's §8 end-to-end scenario: `rewards = [1,0,2]`,
`γ = 9/10`, `λ = 1`, `k = -1`, two unrelated critics. -/
theorem C1_witness :
    ((ActorCriticConfig.init 2 (9/10) 1 1 (-1) 1).lam = 1
      ∧ (ActorCriticConfig.init 2 (9/10) 1 1 (-1) 1).k = -1
      ∧ 0 < ([1, 0, 2] : List Rat).length)
    ∧ ((get_values_and_bootstrapped_returns (probeModel [1, 0] 5 (fun p l => p + l) false)
          (ActorCriticConfig.init 2 (9/10) 1 1 (-1) 1) 0 [[0]] [1, 0, 2]).2.get? 0
        = some (∑ i in Finset.Ico 0 ([1, 0, 2] : List Rat).length,
            (ActorCriticConfig.init 2 (9/10) 1 1 (-1) 1).reward_decay ^ (i - 0)
              * ([1, 0, 2] : List Rat).getD i 0)
      ∧ (get_values_and_bootstrapped_returns (probeModel [1, 0] 5 (fun p l => p + l) false)
          (ActorCriticConfig.init 2 (9/10) 1 1 (-1) 1) 0 [[0]] [1, 0, 2]).2
        = (get_values_and_bootstrapped_returns (probeModel [0, 1] (-7) (fun p _ => p) true)
          (ActorCriticConfig.init 2 (9/10) 1 1 (-1) 1) 1 [[1], [2]] [1, 0, 2]).2) :=
  ⟨⟨rfl, rfl, by decide⟩,
    C1_monte_carlo_return (probeModel [1, 0] 5 (fun p l => p + l) false)
      (probeModel [0, 1] (-7) (fun p _ => p) true)
      (ActorCriticConfig.init 2 (9/10) 1 1 (-1) 1) 0 1 [[0]] [[1], [2]]
      [1, 0, 2] 0 rfl rfl (by decide)⟩

/-- C4 counterexample: constructing `ActorCriticConfig` with every
hyperparameter invalid in the claim's sense (`num_actions = 0 < 1`,
`reward_decay = 3/2 ∉ [0,1]`, negative iteration counts, `lam = -1 ∉ [0,1]`)
raises nothing: `__init__` runs to completion and stores the values verbatim,
so no `ConfigurationError` validation exists. -/
theorem C4_counterexample :
    ActorCriticConfig.init 0 (3/2) (-5) (-2) 0 (-1)
      = { num_actions := 0, reward_decay := 3/2, actor_train_iters := -5,
          critic_train_iters := -2, k := 0, lam := -1 } := rfl

/-- C4 amended: construction performs no validation at all — every combination
of arguments is accepted and each of the six hyperparameters is stored
verbatim; the constructor cannot raise. -/
theorem C4_no_validation (num_actions : Int) (reward_decay : Rat)
    (actor_train_iters : Int) (critic_train_iters : Int) (k : Int) (lam : Rat) :
    (ActorCriticConfig.init num_actions reward_decay actor_train_iters
        critic_train_iters k lam).num_actions = num_actions
    ∧ (ActorCriticConfig.init num_actions reward_decay actor_train_iters
        critic_train_iters k lam).reward_decay = reward_decay
    ∧ (ActorCriticConfig.init num_actions reward_decay actor_train_iters
        critic_train_iters k lam).actor_train_iters = actor_train_iters
    ∧ (ActorCriticConfig.init num_actions reward_decay actor_train_iters
        critic_train_iters k lam).critic_train_iters = critic_train_iters
    ∧ (ActorCriticConfig.init num_actions reward_decay actor_train_iters
        critic_train_iters k lam).k = k
    ∧ (ActorCriticConfig.init num_actions reward_decay actor_train_iters
        critic_train_iters k lam).lam = lam :=
  ⟨rfl, rfl, rfl, rfl, rfl, rfl⟩

/-- C6 counterexample: return targets of length 3 against value estimates of
length 1 — lengths differ, yet `return_est - state_values` (`ac.py` line 90)
broadcasts and produces a result instead of raising any error. -/
theorem C6_counterexample :
    torchSub1d [2, 3, 4] [5] = some [-3, -2, -1]
    ∧ ¬ ([2, 3, 4] : List Rat).length = ([5] : List Rat).length := by
  refine ⟨?_, by decide⟩
  norm_num [torchSub1d, List.headI]

/-- C6 amended: mismatched lengths raise the tensor library's size error only
when neither operand has length 1; a length-1 operand broadcasts silently and
a result is produced. -/
theorem C6_mismatch_raises (G V : List Rat) (h : G.length ≠ V.length)
    (hG : G.length ≠ 1) (hV : V.length ≠ 1) :
    torchSub1d G V = none := by
  unfold torchSub1d
  rw [if_neg h, if_neg hV, if_neg hG]

/-- Witness for C6 amended at lengths 2 and 3. -/
theorem C6_witness :
    (([1, 2] : List Rat).length ≠ ([1, 2, 3] : List Rat).length
      ∧ ([1, 2] : List Rat).length ≠ 1 ∧ ([1, 2, 3] : List Rat).length ≠ 1)
    ∧ torchSub1d [1, 2] [1, 2, 3] = none :=
  ⟨⟨by decide, by decide, by decide⟩,
    C6_mismatch_raises [1, 2] [1, 2, 3] (by decide) (by decide) (by decide)⟩

/-- C8: on equal-length return targets `G` and value estimates `V`, the
advantage computed at `ac.py` line 90 is produced (no error) and equals
`G[t] - V[t]` exactly at every index `t`; the operation is a pure function of
its inputs. -/
theorem C8_advantage_elementwise (G V : List Rat) (t : Nat)
    (h : G.length = V.length) (ht : t < G.length) :
    torchSub1d G V = some (List.zipWith (fun a b => a - b) G V)
    ∧ (List.zipWith (fun a b => a - b) G V).get? t
      = some (G.getD t 0 - V.getD t 0) :=
  ⟨by simp [torchSub1d, h], zipWith_sub_get? G V t ht (h ▸ ht)⟩

/-- Witness for C8 at `G = [3,5]`, `V = [1,2]`, `t = 0`. -/
theorem C8_witness :
    (([3, 5] : List Rat).length = ([1, 2] : List Rat).length
      ∧ 0 < ([3, 5] : List Rat).length)
    ∧ (torchSub1d [3, 5] [1, 2]
        = some (List.zipWith (fun a b => a - b) [3, 5] [1, 2])
      ∧ (List.zipWith (fun a b => a - b) ([3, 5] : List Rat) [1, 2]).get? 0
        = some (([3, 5] : List Rat).getD 0 0 - ([1, 2] : List Rat).getD 0 0)) :=
  ⟨⟨by decide, by decide⟩,
    C8_advantage_elementwise [3, 5] [1, 2] 0 (by decide) (by decide)⟩

/-- C10: `choose_action` never reads its `epsilon` parameter — for any two
values (including `none`, the Python default `None`) the evaluated
distribution, the validation outcome and the sampled action are identical. -/
theorem C10_epsilon_unused {P : Type} (alg : ActorCritic P) (θ : P)
    (state : List Rat) (u : Rat) (e1 e2 : Option Rat) :
    alg.choose_action θ state e1 u = alg.choose_action θ state e2 u := rfl

/-- C9: the action sampler is deterministic given its randomness source and
the model: two calls that draw the same uniform variate and whose models
evaluate to the same action distribution (with the same `num_actions`) return
the same result. -/
theorem C9_sampler_deterministic {P Q : Type} (alg : ActorCritic P)
    (alg2 : ActorCritic Q) (θ : P) (θ2 : Q) (state : List Rat)
    (e1 e2 : Option Rat) (u : Rat)
    (hdist : alg.core_model.actorEval θ state = alg2.core_model.actorEval θ2 state)
    (hn : alg.config.num_actions = alg2.config.num_actions) :
    alg.choose_action θ state e1 u = alg2.choose_action θ2 state e2 u := by
  unfold ActorCritic.choose_action
  rw [hdist, hn]

/-- Witness for C9: `sampAlg` and `sampAlg2` differ in critic head, step
function, shared-layer flag and every hyperparameter except `num_actions`, yet
agree on the evaluated distribution; the sampled actions coincide. -/
theorem C9_witness :
    (sampAlg.core_model.actorEval 0 [0] = sampAlg2.core_model.actorEval 1 [0]
      ∧ sampAlg.config.num_actions = sampAlg2.config.num_actions)
    ∧ sampAlg.choose_action 0 [0] none (1/4)
      = sampAlg2.choose_action 1 [0] (some (1/10)) (1/4) :=
  ⟨⟨rfl, rfl⟩,
    C9_sampler_deterministic sampAlg sampAlg2 0 1 [0] none (some (1/10)) (1/4) rfl rfl⟩

/-- On a constructed instance (`_critic_loss_func` absent) with compatible
sequence lengths and no trainable shared layers, `train` reduces to the actor
loop followed by the value loop. -/
theorem train_no_shared_eval {P : Type} (log : Rat → Rat) (M : CoreModel P)
    (cfg : ActorCriticConfig) (θ : P) (states : List (List Rat))
    (actions : List Nat) (rewards : List Rat)
    (hshared : M.has_trainable_shared_layers = false)
    (hlen : states.length = rewards.length) :
    (ActorCritic.init M cfg).train log θ states actions rewards
      = criticPhase M none states
          (get_values_and_bootstrapped_returns M cfg θ states rewards).2
          cfg.critic_train_iters.toNat
          (actorPhase log M states actions
            (List.zipWith (fun a b => a - b)
              (get_values_and_bootstrapped_returns M cfg θ states rewards).2
              (get_values_and_bootstrapped_returns M cfg θ states rewards).1)
            cfg.actor_train_iters.toNat θ) := by
  have hlen2 : (get_values_and_bootstrapped_returns M cfg θ states rewards).2.length
      = (get_values_and_bootstrapped_returns M cfg θ states rewards).1.length := by
    simp [get_values_and_bootstrapped_returns, get_lambda_returns_length, hlen]
  have hsub : torchSub1d (get_values_and_bootstrapped_returns M cfg θ states rewards).2
        (get_values_and_bootstrapped_returns M cfg θ states rewards).1
      = some (List.zipWith (fun a b => a - b)
          (get_values_and_bootstrapped_returns M cfg θ states rewards).2
          (get_values_and_bootstrapped_returns M cfg θ states rewards).1) := by
    simp [torchSub1d, hlen2]
  simp only [ActorCritic.train, ActorCritic.init, hsub, hshared, Bool.false_eq_true,
    if_false]

/-- On an instance whose model has trainable shared layers and whose sequence
lengths are compatible, `train` does nothing: the branch body at `ac.py`
lines 92-93 is `pass`, so no gradient step of either loop runs. -/
theorem train_shared_pass {P : Type} (log : Rat → Rat) (M : CoreModel P)
    (cfg : ActorCriticConfig) (θ : P) (states : List (List Rat))
    (actions : List Nat) (rewards : List Rat)
    (hshared : M.has_trainable_shared_layers = true)
    (hlen : states.length = rewards.length) :
    (ActorCritic.init M cfg).train log θ states actions rewards = .ok θ := by
  have hlen2 : (get_values_and_bootstrapped_returns M cfg θ states rewards).2.length
      = (get_values_and_bootstrapped_returns M cfg θ states rewards).1.length := by
    simp [get_values_and_bootstrapped_returns, get_lambda_returns_length, hlen]
  have hsub : torchSub1d (get_values_and_bootstrapped_returns M cfg θ states rewards).2
        (get_values_and_bootstrapped_returns M cfg θ states rewards).1
      = some (List.zipWith (fun a b => a - b)
          (get_values_and_bootstrapped_returns M cfg θ states rewards).2
          (get_values_and_bootstrapped_returns M cfg θ states rewards).1) := by
    simp [torchSub1d, hlen2]
  simp only [ActorCritic.train, ActorCritic.init, hsub, hshared, if_true]

/-- C2 counterexample: `sharedAlg` reports trainable shared layers with
`actor_train_iters = 1`, and its step function moves the parameter (by 1) on
every invocation; yet `train` returns the parameter unchanged — zero gradient
steps are performed instead of the claimed `actor_train_iters = 1`. -/
theorem C2_counterexample :
    sharedAlg.train (fun x => x) 0 [[0]] [0] [1] = .ok 0
    ∧ sharedAlg.core_model.step 0 0 = 1
    ∧ sharedAlg.config.actor_train_iters = 1 := by
  refine ⟨?_, by norm_num [sharedAlg, probeModel, ActorCritic.init], rfl⟩
  exact train_shared_pass (fun x => x) (probeModel [1/2, 1/2] 0 (fun p _ => p + 1) true)
    (ActorCriticConfig.init 2 (1/2) 1 0 (-1) 1) 0 [[0]] [0] [1] rfl (by decide)

/-- C2 amended (policy update, given the model has no trainable shared
layers): `train` leaves the parameters exactly as `actor_train_iters`
iterations of the spec-side `policyUpdateSpec` recursion do — each iteration
freshly recomputes the taken actions' probabilities under the parameters
current at that iteration, forms `−mean_t(log(prob_t) · advantage_t)`, and
applies exactly one model step. -/
theorem C2_policy_update {P : Type} (log : Rat → Rat) (M : CoreModel P)
    (cfg : ActorCriticConfig) (θ : P) (states : List (List Rat))
    (actions : List Nat) (rewards : List Rat)
    (hshared : M.has_trainable_shared_layers = false)
    (hlen : states.length = rewards.length) :
    ((ActorCritic.init M cfg).train log θ states actions rewards).params
      = policyUpdateSpec log M states actions
          (List.zipWith (fun a b => a - b)
            (get_values_and_bootstrapped_returns M cfg θ states rewards).2
            (get_values_and_bootstrapped_returns M cfg θ states rewards).1)
          cfg.actor_train_iters.toNat θ := by
  rw [train_no_shared_eval log M cfg θ states actions rewards hshared hlen,
    criticPhase_none_params, actorPhase_eq_policyUpdateSpec]

/-- Witness for C2 amended: a concrete two-iteration policy update. -/
theorem C2_witness :
    ((probeModel [1/2, 1/2] 0 (fun p l => p + l) false).has_trainable_shared_layers = false
      ∧ ([[0]] : List (List Rat)).length = ([1] : List Rat).length)
    ∧ ((ActorCritic.init (probeModel [1/2, 1/2] 0 (fun p l => p + l) false)
          (ActorCriticConfig.init 2 (1/2) 2 3 (-1) 1)).train (fun _ => 1) 0 [[0]] [0] [1]).params
      = policyUpdateSpec (fun _ => 1) (probeModel [1/2, 1/2] 0 (fun p l => p + l) false)
          [[0]] [0]
          (List.zipWith (fun a b => a - b)
            (get_values_and_bootstrapped_returns
              (probeModel [1/2, 1/2] 0 (fun p l => p + l) false)
              (ActorCriticConfig.init 2 (1/2) 2 3 (-1) 1) 0 [[0]] [1]).2
            (get_values_and_bootstrapped_returns
              (probeModel [1/2, 1/2] 0 (fun p l => p + l) false)
              (ActorCriticConfig.init 2 (1/2) 2 3 (-1) 1) 0 [[0]] [1]).1)
          (Int.toNat 2) 0 :=
  ⟨⟨rfl, by decide⟩,
    C2_policy_update (fun _ => 1) (probeModel [1/2, 1/2] 0 (fun p l => p + l) false)
      (ActorCriticConfig.init 2 (1/2) 2 3 (-1) 1) 0 [[0]] [0] [1] rfl (by decide)⟩

/-- C3: the claim is what `train` was meant to do, but the code cannot do it:
`self._critic_loss_func` is referenced at `ac.py` line 103 yet never assigned
anywhere (the `ActorCriticConfig` docstring documents a `critic_loss_func`
argument that `__init__` does not accept), so the first value-loop iteration
raises `AttributeError` — here, with `critic_train_iters = 1`, a call on valid
inputs ends in `err` with zero critic gradient steps performed. -/
theorem C3_critic_loss_attribute_error :
    noLossAlg.critic_loss_func = none
    ∧ noLossAlg.train (fun x => x) 0 [[0]] [0] [1] = .err 0 := by
  refine ⟨rfl, ?_⟩
  rw [show noLossAlg = ActorCritic.init (probeModel [1/2, 1/2] 0 (fun p l => p + l) false)
      (ActorCriticConfig.init 2 (1/2) 0 1 (-1) 1) from rfl]
  rw [train_no_shared_eval _ _ _ _ _ _ _ rfl (by decide)]
  rfl

/-- C7 counterexample: `zeroProbAlg` assigns probability exactly 0 to the
taken action.  `logProbeA` and `logProbeB` agree at every nonzero argument and
differ only at 0, yet the two training runs end in different parameters — so
`torch.log` is applied to the zero probability itself (nothing clamps it away
from zero first) and no error is raised. -/
theorem C7_counterexample :
    zeroProbAlg.train logProbeA 0 [[0]] [0] [1] = .ok (-1)
    ∧ zeroProbAlg.train logProbeB 0 [[0]] [0] [1] = .ok (-2) := by
  constructor <;>
    norm_num [zeroProbAlg, probeModel, ActorCritic.init, ActorCritic.train,
      ActorCriticConfig.init, get_values_and_bootstrapped_returns, get_lambda_returns,
      kStepReturn, kStepHorizon, torchSub1d, actorPhase, actorIter, criticPhase, mean,
      logProbeA, logProbeB, List.range_succ, Finset.sum_range_succ]

/-- C7 amended: the zero-probability case is not handled — the policy update
applies the logarithm to each taken action's probability exactly as gathered
from the model (no clamp intervenes: the argument of `log` is the raw
probability, which may be exactly 0), and the call raises no error on account
of it: for any model without trainable shared layers, compatible lengths, and
no critic iterations to trip the unrelated missing-attribute failure, `train`
returns `ok` whatever the probabilities are, with the loss built from `log`
of the raw gathered probabilities. -/
theorem C7_log_unguarded {P : Type} (log : Rat → Rat) (M : CoreModel P)
    (cfg : ActorCriticConfig) (θ : P) (states : List (List Rat))
    (actions : List Nat) (rewards : List Rat)
    (hshared : M.has_trainable_shared_layers = false)
    (hlen : states.length = rewards.length)
    (hcrit : cfg.critic_train_iters ≤ 0) :
    (ActorCritic.init M cfg).train log θ states actions rewards
      = .ok (actorPhase log M states actions
          (List.zipWith (fun a b => a - b)
            (get_values_and_bootstrapped_returns M cfg θ states rewards).2
            (get_values_and_bootstrapped_returns M cfg θ states rewards).1)
          cfg.actor_train_iters.toNat θ) := by
  rw [train_no_shared_eval log M cfg θ states actions rewards hshared hlen,
    Int.toNat_of_nonpos hcrit]
  rfl

/-- Witness for C7 amended, at the zero-probability instance. -/
theorem C7_witness :
    ((probeModel [0, 1] 0 (fun p l => p + l) false).has_trainable_shared_layers = false
      ∧ ([[0]] : List (List Rat)).length = ([1] : List Rat).length
      ∧ (ActorCriticConfig.init 2 (1/2) 1 0 (-1) 1).critic_train_iters ≤ 0)
    ∧ (ActorCritic.init (probeModel [0, 1] 0 (fun p l => p + l) false)
          (ActorCriticConfig.init 2 (1/2) 1 0 (-1) 1)).train logProbeA 0 [[0]] [0] [1]
      = .ok (actorPhase logProbeA (probeModel [0, 1] 0 (fun p l => p + l) false)
          [[0]] [0]
          (List.zipWith (fun a b => a - b)
            (get_values_and_bootstrapped_returns (probeModel [0, 1] 0 (fun p l => p + l) false)
              (ActorCriticConfig.init 2 (1/2) 1 0 (-1) 1) 0 [[0]] [1]).2
            (get_values_and_bootstrapped_returns (probeModel [0, 1] 0 (fun p l => p + l) false)
              (ActorCriticConfig.init 2 (1/2) 1 0 (-1) 1) 0 [[0]] [1]).1)
          (Int.toNat 1) 0) :=
  ⟨⟨rfl, by decide, by decide⟩,
    C7_log_unguarded logProbeA (probeModel [0, 1] 0 (fun p l => p + l) false)
      (ActorCriticConfig.init 2 (1/2) 1 0 (-1) 1) 0 [[0]] [0] [1]
      rfl (by decide) (by decide)⟩

/-- The index `numpy.random.choice` draws is always a valid action index, as
long as the probabilities sum to something positive and the uniform variate is
below 1. -/
theorem categoricalSample_lt_length (p : List Rat) (u : Rat)
    (hpos : 0 < p.length) (hsum : p.sum ≠ 0) (hu1 : u < 1) :
    categoricalSample p u < p.length := by
  unfold categoricalSample
  have hmem : (1 : Rat) ∈ (cumsum p).map (fun c => c / p.sum) :=
    List.mem_map.mpr ⟨p.sum, sum_mem_cumsum p hpos, div_self hsum⟩
  have hlt := List.findIdx_lt_length_of_exists (p := fun c => decide (u < c))
    ⟨1, hmem, by simpa using hu1⟩
  calc ((cumsum p).map (fun c => c / p.sum)).findIdx (fun c => decide (u < c))
      < ((cumsum p).map (fun c => c / p.sum)).length := hlt
    _ = p.length := by simp [cumsum]

/-- C5: `choose_action` evaluates the policy in inference mode (the embedding
is a pure function of the parameters: nothing is mutated, no gradient exists),
and hands the resulting vector to `np.random.choice`: whenever the vector has
a negative entry or its sum is off 1 by more than numpy's tolerance, the call
fails with a `ValueError`; otherwise it returns the index sampled from the
categorical distribution by the uniform variate `u`, a valid action index. -/
theorem C5_choose_action_validates {P : Type} (alg : ActorCritic P) (θ : P)
    (state : List Rat) (epsilon : Option Rat) (u : Rat)
    (hsize : ((alg.core_model.actorEval θ state).length : Int) = alg.config.num_actions)
    (hpos : 0 < (alg.core_model.actorEval θ state).length)
    (hu0 : 0 ≤ u) (hu1 : u < 1) :
    (((alg.core_model.actorEval θ state).any (fun x => decide (x < 0)) = true
        ∨ |(alg.core_model.actorEval θ state).sum - 1| > np_atol)
      → ∃ e, alg.choose_action θ state epsilon u = .error e)
    ∧ (((∀ x ∈ alg.core_model.actorEval θ state, 0 ≤ x)
        ∧ |(alg.core_model.actorEval θ state).sum - 1| ≤ np_atol)
      → alg.choose_action θ state epsilon u
          = .ok (categoricalSample (alg.core_model.actorEval θ state) u)
        ∧ categoricalSample (alg.core_model.actorEval θ state) u
            < (alg.core_model.actorEval θ state).length) := by
  set d := alg.core_model.actorEval θ state with hd
  have h0 : ¬ (alg.config.num_actions ≤ 0) := by omega
  have h1 : ¬ ((d.length : Int) ≠ alg.config.num_actions) := by omega
  constructor
  · intro hbad
    by_cases hneg : d.any (fun x => decide (x < 0)) = true
    · exact ⟨.negativeProb, by
        simp only [ActorCritic.choose_action, np_random_choice, ← hd]
        rw [if_neg h0, if_neg h1, if_pos hneg]⟩
    · have hsum : |d.sum - 1| > np_atol := hbad.resolve_left hneg
      exact ⟨.notNormalized, by
        simp only [ActorCritic.choose_action, np_random_choice, ← hd]
        rw [if_neg h0, if_neg h1, if_neg hneg, if_pos hsum]⟩
  · rintro ⟨hnonneg, hsum⟩
    have hneg : ¬ (d.any (fun x => decide (x < 0)) = true) := by
      intro hcontra
      rcases List.any_eq_true.mp hcontra with ⟨x, hx, hxlt⟩
      have hxlt' : x < 0 := by simpa using hxlt
      exact absurd (hnonneg x hx) hxlt'.not_le
    have hatol : np_atol < 1 := by norm_num [np_atol]
    have hbounds := abs_le.mp hsum
    have hspos : (0 : Rat) < d.sum := by linarith [hbounds.1]
    refine ⟨?_, categoricalSample_lt_length d u hpos (ne_of_gt hspos) hu1⟩
    simp only [ActorCritic.choose_action, np_random_choice, ← hd]
    rw [if_neg h0, if_neg h1, if_neg hneg, if_neg (not_lt.mpr hsum)]

/-- Witness for C5, at the uniform two-action instance with `u = 1/4`. -/
theorem C5_witness :
    (((sampAlg.core_model.actorEval 0 [0]).length : Int) = sampAlg.config.num_actions
      ∧ 0 < (sampAlg.core_model.actorEval 0 [0]).length
      ∧ (0 : Rat) ≤ 1/4 ∧ (1/4 : Rat) < 1
      ∧ (∀ x ∈ sampAlg.core_model.actorEval 0 [0], 0 ≤ x)
      ∧ |(sampAlg.core_model.actorEval 0 [0]).sum - 1| ≤ np_atol)
    ∧ (sampAlg.choose_action 0 [0] none (1/4)
        = .ok (categoricalSample (sampAlg.core_model.actorEval 0 [0]) (1/4))
      ∧ categoricalSample (sampAlg.core_model.actorEval 0 [0]) (1/4)
          < (sampAlg.core_model.actorEval 0 [0]).length) :=
  ⟨⟨by decide, by decide, by norm_num, by norm_num,
      by norm_num [sampAlg, probeModel, ActorCritic.init],
      by norm_num [sampAlg, probeModel, ActorCritic.init, np_atol]⟩,
    (C5_choose_action_validates sampAlg 0 [0] none (1/4) (by decide) (by decide)
        (by norm_num) (by norm_num)).2
      ⟨by norm_num [sampAlg, probeModel, ActorCritic.init],
        by norm_num [sampAlg, probeModel, ActorCritic.init, np_atol]⟩⟩
